import Mathlib

/-
Verification of the health-check HTTP route in
src/backend/app/routers/health.py.

The authored source registers a router with path prefix "/health", one
route at the empty sub-path for methods GET and HEAD, and a handler
whose whole body is the construction of a default HealthResponse.
-/

namespace HealthRoute

/-- HTTP methods relevant to the route registration. -/
inductive Method where
  | GET
  | HEAD
  | POST
  | PUT
  | DELETE
  | PATCH
  | OPTIONS
deriving DecidableEq, Repr

/-- Modelled from the spec: `HealthResponse` is imported from
`..models.domain`, whose definition is not in the provided source slice.
The spec describes it as a health-status record that is always
constructible with default values, scenario 1 giving the default body a
single status field with value "ok". -/
structure HealthResponse where
  status : String := "ok"
deriving DecidableEq, Repr

/-- The router path prefix from `APIRouter` in health.py. -/
def routerBasePath : String := "/health"

/-- The router tags from `APIRouter` in health.py. -/
def routerTags : List String := ["health"]

/-- The sub-path of the single registered route (`api_route` first argument). -/
def routeSubPath : String := ""

/-- The methods list of the single registered route (`api_route` methods). -/
def routeMethods : List Method := [Method.GET, Method.HEAD]

/-- The full path of the route: router prefix combined with the sub-path. -/
def routeFullPath : String := routerBasePath ++ routeSubPath

/-- The route declares no status code, so it carries the framework default
for a successful response, 200. -/
def routeStatusCode : Nat := 200

/-- The handler body from health.py: `return HealthResponse()` — the model
constructed with no arguments, so every field takes its default. -/
def health : HealthResponse := {}

/-- Modelled from the spec: the construction `HealthResponse()` performed by
the handler, viewed as a fallible step (the model validation code is not in
the source slice). The spec guarantees that construction with all default
values never fails under normal conditions. -/
def constructHealthResponse : Except String HealthResponse :=
  Except.ok {}

/-- An incoming HTTP request as seen by the routing layer. -/
structure Request where
  method : Method
  path : String
  headers : List (String × String)
  query : List (String × String)
  body : String

/-- The possible routing outcomes for this application. -/
inductive Response where
  | ok (payload : HealthResponse)
  | notFound
  | methodNotAllowed
deriving DecidableEq, Repr

/-- The HTTP status code of each routing outcome. -/
def Response.statusCode : Response → Nat
  | Response.ok _ => routeStatusCode
  | Response.notFound => 404
  | Response.methodNotAllowed => 405

/-- Modelled from the spec: the framework routing dispatch, which is an
external collaborator and not part of the authored source. A request
matches the single registered route exactly when its path equals the
registered full path; a path match with an unregistered method is rejected
without invoking the handler; a request whose path matches no route yields
404. On a match the handler runs once and its payload is the entire
response. The second component counts handler invocations. -/
def dispatchCount (req : Request) : Response × Nat :=
  if req.path = routeFullPath then
    if req.method ∈ routeMethods then (Response.ok health, 1)
    else (Response.methodNotAllowed, 0)
  else (Response.notFound, 0)

/-- The routing outcome of a request. -/
def dispatch (req : Request) : Response :=
  (dispatchCount req).1

/-- The handler with an explicit ambient state of arbitrary type threaded
through: the body `return HealthResponse()` reads and writes no ambient
state, so the state passes through unchanged. -/
def healthSt {σ : Type} (s : σ) : HealthResponse × σ :=
  (health, s)

/-- Running one handler invocation per element of a list of call labels,
threading the ambient state through the sequence and collecting every
payload. Any interleaving of independent invocations is some such list. -/
def execCalls {ι σ : Type} : List ι → σ → List HealthResponse × σ
  | [], s => ([], s)
  | _ :: rest, s =>
    let p := healthSt s
    let q := execCalls rest p.2
    (p.1 :: q.1, q.2)

theorem execCalls_eq {ι σ : Type} (calls : List ι) (s : σ) :
    execCalls calls s = (List.replicate calls.length health, s) := by
  induction calls generalizing s with
  | nil => rfl
  | cons a rest ih => simp [execCalls, healthSt, ih, List.replicate]

theorem full_path_eq : routeFullPath = "/health" := by decide

/-- C1: for every GET or HEAD request to the exact path /health, the
handler returns a HealthResponse constructed with all of its default field
values, and that object is the entire response payload. -/
theorem dispatch_returns_default_payload (req : Request)
    (hp : req.path = routeFullPath) (hm : req.method ∈ routeMethods) :
    dispatch req = Response.ok (HealthResponse.mk "ok") ∧
      health = ({} : HealthResponse) := by
  refine ⟨?_, rfl⟩
  simp [dispatch, dispatchCount, hp, hm, health]

/-- Witness for C1 at a concrete GET request to /health. -/
theorem dispatch_returns_default_payload_witness :
    dispatch ⟨Method.GET, "/health", [], [], ""⟩ =
        Response.ok (HealthResponse.mk "ok") ∧
      health = ({} : HealthResponse) :=
  dispatch_returns_default_payload ⟨Method.GET, "/health", [], [], ""⟩
    (by decide) (by decide)

/-- C2: for every supported method sent to the /health path the response
status code is 200, and the route declares the default 200 status. -/
theorem dispatch_status_200 (req : Request)
    (hp : req.path = routeFullPath) (hm : req.method ∈ routeMethods) :
    (dispatch req).statusCode = 200 ∧ routeStatusCode = 200 := by
  refine ⟨?_, rfl⟩
  simp [dispatch, dispatchCount, hp, hm, Response.statusCode, routeStatusCode]

/-- Witness for C2 at a concrete HEAD request to /health. -/
theorem dispatch_status_200_witness :
    (dispatch ⟨Method.HEAD, "/health", [], [], ""⟩).statusCode = 200 ∧
      routeStatusCode = 200 :=
  dispatch_status_200 ⟨Method.HEAD, "/health", [], [], ""⟩
    (by decide) (by decide)

/-- C3: the handler is registered at exactly the path /health (router
prefix "/health" combined with the empty sub-path) and exactly for the two
methods GET and HEAD. -/
theorem route_registration_exact :
    routerBasePath = "/health" ∧ routeSubPath = "" ∧
      routeFullPath = "/health" ∧
      routeMethods = [Method.GET, Method.HEAD] := by
  refine ⟨rfl, rfl, ?_, rfl⟩
  decide

/-- C4: the handler has no failure path of its own: the construction of the
default HealthResponse succeeds and never yields an error. -/
theorem handler_never_fails :
    constructHealthResponse = Except.ok health ∧
      ∀ e, constructHealthResponse ≠ Except.error e := by
  refine ⟨rfl, ?_⟩
  intro e h
  simp [constructHealthResponse] at h

/-- C5: every call in any sequence of handler calls returns a payload
identical to that of every other call, regardless of call count or
ordering: the list of payloads is a constant list of the single default
payload. -/
theorem calls_all_identical {ι σ : Type} (calls : List ι) (s : σ) :
    (execCalls calls s).1 = List.replicate calls.length health := by
  rw [execCalls_eq]

/-- C6: the response is independent of request content: any two requests
that reach the route, whatever their headers, query parameters, bodies or
supported methods, receive equal responses. -/
theorem dispatch_noninterference (r₁ r₂ : Request)
    (h₁p : r₁.path = routeFullPath) (h₂p : r₂.path = routeFullPath)
    (h₁m : r₁.method ∈ routeMethods) (h₂m : r₂.method ∈ routeMethods) :
    dispatch r₁ = dispatch r₂ := by
  simp [dispatch, dispatchCount, h₁p, h₂p, h₁m, h₂m]

/-- Witness for C6: two requests differing in method, headers, query and
body receive equal responses. -/
theorem dispatch_noninterference_witness :
    dispatch ⟨Method.GET, "/health", [("x", "1")], [("a", "b")], "data"⟩ =
      dispatch ⟨Method.HEAD, "/health", [], [], ""⟩ :=
  dispatch_noninterference
    ⟨Method.GET, "/health", [("x", "1")], [("a", "b")], "data"⟩
    ⟨Method.HEAD, "/health", [], [], ""⟩
    (by decide) (by decide) (by decide) (by decide)

/-- C7: a handler invocation has no observable side effects: the ambient
state, of any type, is returned unchanged, and the only product of the
call is the freshly constructed default payload. -/
theorem handler_no_side_effects {σ : Type} (s : σ) :
    healthSt s = (health, s) := rfl

/-- C8: a GET request to /health/ or to any sub-path beyond the declared
prefix matches no route and yields 404. -/
theorem subpath_not_found (s : String) :
    dispatch ⟨Method.GET, "/health/" ++ s, [], [], ""⟩ = Response.notFound ∧
      (dispatch ⟨Method.GET, "/health/" ++ s, [], [], ""⟩).statusCode = 404 := by
  have hne : ("/health/" ++ s) ≠ routeFullPath := by
    intro h
    have hlen := congrArg String.length h
    rw [String.length_append] at hlen
    have h₁ : ("/health/").length = 8 := rfl
    have h₂ : routeFullPath.length = 7 := rfl
    rw [h₁, h₂] at hlen
    omega
  constructor
  · simp [dispatch, dispatchCount, hne]
  · simp [dispatch, dispatchCount, hne, Response.statusCode]

/-- C9: arbitrarily many concurrent handler invocations, in any
interleaving and over shared state of any type, leave the shared state
unchanged, and each invocation independently yields the identical default
payload with status 200. -/
theorem concurrent_calls_safe {ι σ : Type} (sched : List ι) (s : σ) :
    (execCalls sched s).2 = s ∧
      ∀ r ∈ (execCalls sched s).1,
        r = health ∧ (Response.ok r).statusCode = 200 := by
  rw [execCalls_eq]
  refine ⟨rfl, ?_⟩
  intro r hr
  have hrh : r = health := List.eq_of_mem_replicate hr
  exact ⟨hrh, by simp [Response.statusCode, routeStatusCode]⟩

/-- Witness for C9: a concrete schedule of three invocations over a Nat
state leaves the state unchanged, and the concrete first payload carries
status 200. -/
theorem concurrent_calls_safe_witness :
    (execCalls [0, 1, 2] (5 : Nat)).2 = 5 ∧
      health = health ∧ (Response.ok health).statusCode = 200 := by
  have h := concurrent_calls_safe [0, 1, 2] (5 : Nat)
  refine ⟨h.1, h.2 health ?_⟩
  rw [execCalls_eq]
  decide

/-- C10: a request to /health with any method other than GET or HEAD does
not match the registered route: the handler is invoked zero times and the
framework rejects the request with 405 rather than the health payload. -/
theorem unsupported_method_rejected (m : Method) (hm : m ∉ routeMethods) :
    dispatchCount ⟨m, "/health", [], [], ""⟩ = (Response.methodNotAllowed, 0) ∧
      Response.methodNotAllowed.statusCode = 405 := by
  refine ⟨?_, rfl⟩
  simp [dispatchCount, full_path_eq, hm]

/-- Witness for C10 at a concrete POST request to /health. -/
theorem unsupported_method_rejected_witness :
    dispatchCount ⟨Method.POST, "/health", [], [], ""⟩ =
        (Response.methodNotAllowed, 0) ∧
      Response.methodNotAllowed.statusCode = 405 :=
  unsupported_method_rejected Method.POST (by decide)

end HealthRoute
